/-
Verification of the Dislate plugin (kome1208/dislate).

Shallow embedding of the translation client (src/translate/index.ts:
`engine.fetch`, `engine.parse`, `translate`), the action-sheet patcher and
its revert cache (src/index.tsx: `cachedData`, `patchActionSheet`, the
Translate/Revert press handler), the startup retry logic (`onStart`) and
teardown (`onStop`).

Conventions of the embedding:
  - JavaScript `undefined` is modelled as `Option.none`.
  - JavaScript object reference identity for cache entries is modelled by a
    `tag : Nat` field: every `unshift` allocates a fresh tag, so two distinct
    allocations are never equal, exactly as two distinct JS objects are never
    `===`-equal.
  - Exceptions of the translation parser are modelled by an explicit result
    type (`EngineResult`): `thrown msg` for `throw new Error(msg)` and
    `typeError` for a property access on `undefined`.
-/
import Mathlib

namespace Dislate

/-! ## Translation client (src/translate/index.ts) -/

/-- One element of the provider's `translations` array; `text : none` models
a missing (`undefined`) `text` field. -/
structure Translation where
  text : Option String
deriving DecidableEq, Repr

/-- The provider's JSON response body; `translations : none` models a missing
`translations` field. -/
structure DeepLResponse where
  translations : Option (List Translation)
deriving DecidableEq, Repr

/-- Result of `engine.parse`: a returned string, a thrown `Error(msg)`, or a
`TypeError` from accessing a property of `undefined`. -/
inductive EngineResult where
  | ok (text : String)
  | thrown (msg : String)
  | typeError
deriving DecidableEq, Repr

/-- `const base = "https://api-free.deepl.com/v2/translate"`. -/
def base : String := "https://api-free.deepl.com/v2/translate"

/-- The characters `encodeURIComponent` leaves unescaped: ASCII letters,
digits, and `- _ . ! ~ * ' ( )` (given here by ASCII code). -/
def isUnreservedURI (c : Char) : Bool :=
  c.isAlpha || c.isDigit ||
    (let n := c.toNat
     n == 45 || n == 95 || n == 46 || n == 33 || n == 126 ||
     n == 42 || n == 39 || n == 40 || n == 41)

/-- UTF-8 bytes of a code point (standard 1-4 byte encoding). -/
def utf8Bytes (n : Nat) : List Nat :=
  if n < 128 then [n]
  else if n < 2048 then [192 + n / 64, 128 + n % 64]
  else if n < 65536 then [224 + n / 4096, 128 + (n / 64) % 64, 128 + n % 64]
  else [240 + n / 262144, 128 + (n / 4096) % 64, 128 + (n / 64) % 64, 128 + n % 64]

/-- Uppercase hexadecimal digit. -/
def hexChar (n : Nat) : Char :=
  if n < 10 then Char.ofNat (48 + n) else Char.ofNat (55 + n)

/-- `%XX` escape of one byte, uppercase hex (37 is the ASCII percent sign). -/
def percentEncodeByte (b : Nat) : String :=
  String.mk [Char.ofNat 37, hexChar (b / 16), hexChar (b % 16)]

/-- JavaScript `encodeURIComponent`: unreserved characters pass through,
every other character is replaced by the `%XX` escapes of its UTF-8 bytes. -/
def encodeURIComponent (s : String) : String :=
  s.data.foldl
    (fun acc c =>
      acc ++ (if isUnreservedURI c then String.singleton c
              else String.join ((utf8Bytes c.toNat).map percentEncodeByte)))
    ""

namespace engine

/-- `engine.fetch = ({from, to, text}) => base?target_lang=to + (from ==
'null' ? nothing : &source_lang=from) + &text=encodeURIComponent(text)`.
The sentinel the code compares against is the literal string "null". -/
def fetch (fromLang toLang text : String) : String :=
  base ++ "?target_lang=" ++ toLang ++
    (if fromLang = "null" then "" else "&source_lang=" ++ fromLang) ++
    "&text=" ++ encodeURIComponent text

/-- `engine.parse`: reads `body.translations[0].text`; a falsy text
(empty string, or `undefined` from a missing field) raises
`Error('Invalid Translation!')`; a missing `translations` array or an empty
one makes the property access itself raise a `TypeError`. -/
def parse (body : DeepLResponse) : EngineResult :=
  match body.translations with
  | none => .typeError
  | some [] => .typeError
  | some (t :: _) =>
    match t.text with
    | none => .thrown "Invalid Translation!"
    | some s => if s = "" then .thrown "Invalid Translation!" else .ok s

end engine

/-- The single outbound HTTP request `translate` issues. -/
structure HttpRequest where
  url : String
  method : String
  headers : List (String × String)
deriving DecidableEq, Repr

/-- `translate(text, {fromLang, toLang})`: builds the URL with
`engine.fetch`, performs exactly one `fetch` with method POST and the
`Authorization: DeepL-Auth-Key <key>` header, and parses the provider's
response with `engine.parse`. The model returns the one request together
with the continuation applied to the provider's response. -/
def translate (text fromLang toLang apiKey : String) :
    HttpRequest × (DeepLResponse → EngineResult) :=
  ({ url := engine.fetch fromLang toLang text
     method := "POST"
     headers := [("Authorization", "DeepL-Auth-Key " ++ apiKey)] },
   engine.parse)

end Dislate

namespace Dislate

/-! ## Theorems about the translation client -/

/-- C1: a well-formed provider response whose first translation has a
non-empty `text` makes `translate`'s response continuation return exactly
that text. -/
theorem translate_ok (text fromLang toLang apiKey s : String)
    (resp : DeepLResponse) (t : Translation) (rest : List Translation)
    (harr : resp.translations = some (t :: rest))
    (htext : t.text = some s) (hne : s ≠ "") :
    (translate text fromLang toLang apiKey).2 resp = .ok s := by
  show engine.parse resp = .ok s
  simp [engine.parse, harr, htext, hne]

/-- C1 witness: the spec's example, source "rosie is really tall" to
Japanese, provider response `translations = [text = "ロージーは本当に背が高い"]`. -/
theorem translate_ok_witness :
    (translate "rosie is really tall" "null" "ja" "key").2
        ⟨some [⟨some "ロージーは本当に背が高い"⟩]⟩ =
      .ok "ロージーは本当に背が高い" :=
  translate_ok "rosie is really tall" "null" "ja" "key"
    "ロージーは本当に背が高い" ⟨some [⟨some "ロージーは本当に背が高い"⟩]⟩
    ⟨some "ロージーは本当に背が高い"⟩ [] rfl rfl (by decide)

/-- C2: a response whose first translation has an empty or missing `text`
makes `translate` fail rather than return a value, and in the empty-string
case the error thrown is `Invalid Translation!`. -/
theorem translate_invalid (text fromLang toLang apiKey : String)
    (resp : DeepLResponse) (t : Translation) (rest : List Translation)
    (harr : resp.translations = some (t :: rest))
    (hfalsy : t.text = none ∨ t.text = some "") :
    (∀ s, (translate text fromLang toLang apiKey).2 resp ≠ .ok s) ∧
      (t.text = some "" →
        (translate text fromLang toLang apiKey).2 resp =
          .thrown "Invalid Translation!") := by
  show (∀ s, engine.parse resp ≠ .ok s) ∧
    (t.text = some "" → engine.parse resp = .thrown "Invalid Translation!")
  rcases hfalsy with h | h <;> simp [engine.parse, harr, h]

/-- C2 witness: the spec's example response `translations = [text = ""]`
raises `Invalid Translation!`. -/
theorem translate_invalid_witness :
    (∀ s, (translate "x" "null" "ja" "key").2 ⟨some [⟨some ""⟩]⟩ ≠ .ok s) ∧
      ((⟨some ""⟩ : Translation).text = some "" →
        (translate "x" "null" "ja" "key").2 ⟨some [⟨some ""⟩]⟩ =
          .thrown "Invalid Translation!") :=
  translate_invalid "x" "null" "ja" "key" ⟨some [⟨some ""⟩]⟩ ⟨some ""⟩ []
    rfl (Or.inr rfl)

/-- C5 (amended): `translate` issues exactly one request; it is a POST to
`base` with query parameters `target_lang`, then `source_lang` — omitted
exactly when the source code is the literal sentinel string "null" — then
`text`, percent-encoded, and carries the `DeepL-Auth-Key` header. -/
theorem translate_request (text fromLang toLang apiKey : String) :
    (translate text fromLang toLang apiKey).1.method = "POST" ∧
    (translate text fromLang toLang apiKey).1.headers =
      [("Authorization", "DeepL-Auth-Key " ++ apiKey)] ∧
    (translate text fromLang toLang apiKey).1.url =
      base ++ "?target_lang=" ++ toLang ++
        (if fromLang = "null" then "" else "&source_lang=" ++ fromLang) ++
        "&text=" ++ encodeURIComponent text :=
  ⟨rfl, rfl, rfl⟩

/-- C5 counterexample: when the source code is the string "detect", the
`source_lang` parameter is NOT omitted — the URL carries
`&source_lang=detect`. The sentinel the code tests is "null", not
"detect". -/
theorem translate_detect_counterexample :
    (translate "hi" "detect" "ja" "key").1.url =
      "https://api-free.deepl.com/v2/translate?target_lang=ja&source_lang=detect&text=hi" ∧
    (translate "hi" "detect" "ja" "key").1.url ≠
      "https://api-free.deepl.com/v2/translate?target_lang=ja&text=hi" := by
  exact ⟨by decide, by decide⟩

/-! ## Revert cache and press handler (src/index.tsx) -/

/-- One entry of `cachedData`: the JS object `{ [key]: value }`. The `tag`
models the object's reference identity — each `unshift` allocates a fresh
object, hence a fresh tag. -/
structure CacheEntry where
  tag : Nat
  key : String
  value : String
deriving DecidableEq, Repr

/-- `let cachedData: object[] = [{"invalid_id": "rosie sucks"}]` — the
initial cache holds one sentinel entry (tag 0). -/
def cachedData : List CacheEntry := [⟨0, "invalid_id", "rosie sucks"⟩]

/-- `cachedData.find((o) => Object.keys(o)[0] === messageId)`: the first
entry whose (single) key equals the message id, or `undefined`. -/
def findCached (cache : List CacheEntry) (mid : String) : Option CacheEntry :=
  cache.find? (fun e => e.key == mid)

/-- `cachedData.filter((e) => e !== existingCachedObject)`: keeps every
entry not reference-equal to `existing`; when `existing` is `undefined`
(`none`), every entry passes. -/
def revertRemove (cache : List CacheEntry) (existing : Option CacheEntry) :
    List CacheEntry :=
  cache.filter (fun e => some e != existing)

/-- `translateType = existingCachedObject ? "Revert" : "Translate"` —
the label of the inserted action-sheet row. -/
def translateType (cache : List CacheEntry) (mid : String) : String :=
  if (findCached cache mid).isSome then "Revert" else "Translate"

/-- The `` `[EN]` ``-style suffix appended after a translation (the second
slot of the template literal; on revert that slot is the empty string). -/
def langSuffix (langLabel : String) : String := "`[" ++ langLabel ++ "]`"

/-- Mutable state touched by the press handler: the cache plus the next
fresh object tag. -/
structure PressState where
  cache : List CacheEntry
  nextTag : Nat
deriving DecidableEq, Repr

/-- The `onPress` handler of the inserted row, after the translation
promise resolves. `mid`/`messageContent` are the message id and content
captured at render time, `res` the provider's translated text, `langLabel`
the target-language label. In the code, `isTranslated` is
`translateType === "Translate"`, i.e. no cached entry was found:
  - Translate branch: dispatches content `` `${res} ${langSuffix}` `` and
    runs `cachedData.unshift({ [messageId]: messageContent })`;
  - Revert branch: dispatches content `` `${existing[messageId]} ${""}` ``
    and filters the found entry out of the cache.
Returns the new state and the content dispatched in `MESSAGE_UPDATE`. -/
def dislatePress (s : PressState) (mid messageContent res langLabel : String) :
    PressState × String :=
  match findCached s.cache mid with
  | none =>
    (⟨⟨s.nextTag, mid, messageContent⟩ :: s.cache, s.nextTag + 1⟩,
     res ++ " " ++ langSuffix langLabel)
  | some x =>
    (⟨revertRemove s.cache (some x), s.nextTag⟩,
     x.value ++ " " ++ "")

/-- Helper: `find` locates `x` when everything before it has a different
key and `x`'s key matches. -/
theorem findCached_append (l1 l2 : List CacheEntry) (x : CacheEntry)
    (mid : String) (hl1 : ∀ e ∈ l1, e.key ≠ mid) (hx : x.key = mid) :
    findCached (l1 ++ x :: l2) mid = some x := by
  induction l1 with
  | nil => simp [findCached, List.find?_cons, hx]
  | cons a l ih =>
    have ha : a.key ≠ mid := hl1 a (by simp)
    have hl : ∀ e ∈ l, e.key ≠ mid := fun e he => hl1 e (by simp [he])
    simpa [findCached, List.find?_cons, ha] using ih hl

/-- C4: when message `mid` has no cached entry (the Translate branch), a
successful translation pushes the entry mapping `mid` to the captured
original content onto the FRONT of the cache, leaving the rest intact. -/
theorem press_translate_caches (s : PressState) (mid c r lab : String)
    (h : findCached s.cache mid = none) :
    (dislatePress s mid c r lab).1.cache =
      ⟨s.nextTag, mid, c⟩ :: s.cache := by
  unfold dislatePress
  rw [h]

/-- C4 witness: translating message "123" with content "hello" from the
initial cache puts the new entry at the front. -/
theorem press_translate_caches_witness :
    (dislatePress ⟨cachedData, 1⟩ "123" "hello" "bonjour" "FR").1.cache =
      ⟨1, "123", "hello"⟩ :: cachedData :=
  press_translate_caches ⟨cachedData, 1⟩ "123" "hello" "bonjour" "FR"
    (by decide)

/-- C3 (amended): reverting a message whose original content `x.value` is
cached removes exactly that entry from the cache, and dispatches the
original content followed by ONE trailing space (the space separating the
two slots of the shared template literal), not the original content
verbatim. -/
theorem press_revert_restores (s : PressState) (mid c r lab : String)
    (l1 l2 : List CacheEntry) (x : CacheEntry)
    (hsplit : s.cache = l1 ++ x :: l2)
    (hkey : x.key = mid)
    (hl1 : ∀ e ∈ l1, e.key ≠ mid)
    (hx2 : x ∉ l2) :
    (dislatePress s mid c r lab).1.cache = l1 ++ l2 ∧
    (dislatePress s mid c r lab).2 = x.value ++ " " := by
  have hfind : findCached s.cache mid = some x := by
    rw [hsplit]; exact findCached_append l1 l2 x mid hl1 hkey
  unfold dislatePress
  rw [hfind]
  refine ⟨?_, ?_⟩
  · show revertRemove s.cache (some x) = l1 ++ l2
    rw [hsplit]
    unfold revertRemove
    rw [List.filter_append]
    have h1 : l1.filter (fun e => some e != some x) = l1 := by
      apply List.filter_eq_self.mpr
      intro a ha
      have : a ≠ x := fun hax => hl1 a ha (hax ▸ hkey)
      simpa using this
    have h2 : (x :: l2).filter (fun e => some e != some x) = l2 := by
      rw [List.filter_cons]
      have hx : ((some x != some x) = true) = False := by simp
      simp only [hx, if_false]
      apply List.filter_eq_self.mpr
      intro a ha
      have : a ≠ x := fun hax => hx2 (hax ▸ ha)
      simpa using this
    rw [h1, h2]
  · show x.value ++ " " ++ "" = x.value ++ " "
    simp

/-- C3 witness: from a cache holding "m1" → "hello", reverting "m1"
empties that entry out and dispatches the cached text plus a trailing
space. -/
theorem press_revert_restores_witness :
    (dislatePress ⟨[⟨1, "m1", "hello"⟩], 2⟩ "m1" "c" "r" "lab").1.cache =
        [] ∧
      (dislatePress ⟨[⟨1, "m1", "hello"⟩], 2⟩ "m1" "c" "r" "lab").2 =
        "hello" ++ " " := by
  have h := press_revert_restores ⟨[⟨1, "m1", "hello"⟩], 2⟩ "m1" "c" "r"
    "lab" [] [] ⟨1, "m1", "hello"⟩ rfl rfl (by simp) (by simp)
  simpa using h

/-- C3 counterexample: the content dispatched on revert is "hello " — the
cached original plus a trailing space — and NOT exactly the cached
original "hello". -/
theorem press_revert_counterexample :
    (dislatePress ⟨[⟨1, "m1", "hello"⟩], 2⟩ "m1" "c" "r" "lab").2 ≠
        "hello" ∧
      (dislatePress ⟨[⟨1, "m1", "hello"⟩], 2⟩ "m1" "c" "r" "lab").2 =
        "hello " := by
  exact ⟨by decide, by decide⟩

/-- C7: the label of the inserted row is "Revert" exactly when some cache
entry is keyed by the message id, and "Translate" exactly otherwise. -/
theorem translateType_iff_cached (cache : List CacheEntry) (mid : String) :
    (translateType cache mid = "Revert" ↔ ∃ e ∈ cache, e.key = mid) ∧
    (translateType cache mid = "Translate" ↔ ¬∃ e ∈ cache, e.key = mid) := by
  have hiff : (findCached cache mid).isSome = true ↔
      ∃ e ∈ cache, e.key = mid := by
    simp [findCached, List.find?_isSome]
  by_cases h : ∃ e ∈ cache, e.key = mid
  · have hs : (findCached cache mid).isSome = true := hiff.mpr h
    simp [translateType, hs, h]
  · have hs : (findCached cache mid).isSome = false :=
      Bool.eq_false_iff.mpr fun hc => h (hiff.mp hc)
    simp [translateType, hs, h]

/-- C8: when no cache entry is keyed by the message id, the revert-side
filter (`e !== undefined`) keeps every entry: the cache is unchanged. -/
theorem revertRemove_noop (cache : List CacheEntry) (mid : String)
    (h : findCached cache mid = none) :
    revertRemove cache (findCached cache mid) = cache := by
  rw [h]
  exact List.filter_eq_self.mpr fun a _ => rfl

/-- C8 witness: the initial cache has no entry for message "123", and the
revert-side removal leaves it untouched. -/
theorem revertRemove_noop_witness :
    revertRemove cachedData (findCached cachedData "123") = cachedData :=
  revertRemove_noop cachedData "123" (by decide)

/-! ## Action-sheet render patch (src/index.tsx, patchActionSheet) -/

/-- An element of the located button list: either a host-rendered row
(with its optional `key` and optional `props.message` label) or the row
this plugin inserts (`mainElement`, a FormRow keyed by the plugin's own
external key and labelled "Translate" or "Revert"). -/
inductive SheetItem where
  | host (key : Option String) (message : Option String)
  | dislateRow (key : String) (label : String)
deriving DecidableEq, Repr

/-- `item.key` of a sheet item. -/
def itemKey : SheetItem → Option String
  | .host k _ => k
  | .dislateRow k _ => some k

/-- `item.props.message` of a sheet item. -/
def itemMessage : SheetItem → Option String
  | .host _ m => m
  | .dislateRow _ _ => none

/-- `buttonOffset`: one increment per external-plugin key present among
the items (an item whose key equals the plugin's own key is skipped by the
inner predicate), plus one for a Reply row and one for an Edit row when
present. `extKeys` are `Object.values(Miscellaneous.externalPlugins)` and
`dKey` is `Miscellaneous.externalPlugins.dislate`, both host data supplied
as parameters. -/
def buttonOffset (extKeys : List String) (dKey replyLabel editLabel : String)
    (items : List SheetItem) : Nat :=
  (extKeys.filter (fun k =>
      items.any (fun it => itemKey it != some dKey && itemKey it == some k))).length
  + (if items.any (fun it => itemMessage it == some replyLabel) then 1 else 0)
  + (if items.any (fun it => itemMessage it == some editLabel) then 1 else 0)

/-- `array.splice(i, 0, x)`: insert `x` at index `i`, clamped to the array
length, keeping every existing element. -/
def spliceInsert (l : List SheetItem) (i : Nat) (x : SheetItem) :
    List SheetItem :=
  l.take i ++ x :: l.drop i

/-- The message being long-pressed: its id and its effective content
(`originalMessage?.content ?? message[0]?.message?.content`); `none`
models a message with no content anywhere. -/
structure MessageInfo where
  id : String
  content : Option String
deriving DecidableEq, Repr

/-- The host's render result: whether `res.props` exists, and the located
button list (`finalLocation`), `none` when `findInReactTree` fails. -/
structure SheetResult where
  hasProps : Bool
  finalLocation : Option (List SheetItem)
deriving DecidableEq, Repr

/-- JS truthiness of the optional message content: `undefined` and the
empty string are falsy. -/
def contentTruthy : Option String → Bool
  | none => false
  | some s => s != ""

/-- The render phase of `patchActionSheet`: returns `res` unchanged when
`res.props` is missing, when no button list is located, or when the
message has no (truthy) content; otherwise splices `mainElement` — a row
keyed by the plugin's external key and labelled by `translateType` — into
the located list at `buttonOffset`. (In the source, `buttonOffset` is
computed before the content guard; the order does not affect the
result.) -/
def patchActionSheet (extKeys : List String)
    (dKey replyLabel editLabel : String) (cache : List CacheEntry)
    (msg : MessageInfo) (res : SheetResult) : SheetResult :=
  if !res.hasProps then res
  else
    match res.finalLocation with
    | none => res
    | some items =>
      let off := buttonOffset extKeys dKey replyLabel editLabel items
      if !contentTruthy msg.content then res
      else
        ⟨res.hasProps,
          some (spliceInsert items off
            (.dislateRow dKey (translateType cache msg.id)))⟩

/-- C9: when the render result has props, a located button list and truthy
message content, the patch inserts exactly one Translate/Revert row at
some position `k ≤ length`, keeping every pre-existing item in order
(`take k ++ row :: drop k`); when props, list or content are missing, the
result is returned unchanged. -/
theorem patchActionSheet_frame (extKeys : List String)
    (dKey replyLabel editLabel : String) (cache : List CacheEntry)
    (msg : MessageInfo) (res : SheetResult) :
    (∀ items, res.hasProps = true → res.finalLocation = some items →
      contentTruthy msg.content = true →
      ∃ k, k ≤ items.length ∧
        patchActionSheet extKeys dKey replyLabel editLabel cache msg res =
          ⟨res.hasProps, some (items.take k ++
            SheetItem.dislateRow dKey (translateType cache msg.id) ::
              items.drop k)⟩) ∧
    (res.hasProps = false →
      patchActionSheet extKeys dKey replyLabel editLabel cache msg res = res) ∧
    (res.finalLocation = none →
      patchActionSheet extKeys dKey replyLabel editLabel cache msg res = res) ∧
    (contentTruthy msg.content = false →
      patchActionSheet extKeys dKey replyLabel editLabel cache msg res = res) := by
  refine ⟨?_, ?_, ?_, ?_⟩
  · intro items h1 h2 h3
    refine ⟨min (buttonOffset extKeys dKey replyLabel editLabel items)
      items.length, Nat.min_le_right _ _, ?_⟩
    rcases Nat.le_total (buttonOffset extKeys dKey replyLabel editLabel items)
        items.length with hle | hge
    · rw [Nat.min_eq_left hle]
      simp [patchActionSheet, h1, h2, h3, spliceInsert]
    · rw [Nat.min_eq_right hge]
      simp [patchActionSheet, h1, h2, h3, spliceInsert,
        List.take_of_length_le hge, List.drop_length,
        List.drop_eq_nil_iff.mpr hge]
  · intro h
    simp [patchActionSheet, h]
  · intro h
    cases hp : res.hasProps <;> simp [patchActionSheet, hp, h]
  · intro h
    cases hp : res.hasProps <;> cases hf : res.finalLocation <;>
      simp [patchActionSheet, hp, hf, h]

/-- C9 witness: a sheet with props, a one-row button list (a Reply row)
and a message with content gets the Translate/Revert row spliced in while
the Reply row stays. -/
theorem patchActionSheet_frame_witness :
    ∃ k, k ≤ ([SheetItem.host none (some "Reply")]).length ∧
      patchActionSheet [] "dislate" "Reply" "Edit" cachedData ⟨"1", some "hi"⟩
          ⟨true, some [SheetItem.host none (some "Reply")]⟩ =
        ⟨true, some (([SheetItem.host none (some "Reply")]).take k ++
          SheetItem.dislateRow "dislate" (translateType cachedData "1") ::
            ([SheetItem.host none (some "Reply")]).drop k)⟩ :=
  (patchActionSheet_frame [] "dislate" "Reply" "Edit" cachedData
      ⟨"1", some "hi"⟩ ⟨true, some [SheetItem.host none (some "Reply")]⟩).1
    [SheetItem.host none (some "Reply")] rfl rfl (by decide)

/-! ## Startup retry logic (src/index.tsx, onStart) -/

/-- `const maxAttempts = 3`. -/
def maxAttempts : Nat := 3

/-- The members of the `Dislate` plugin object literal (besides the spread
manifest fields, which are plain strings from manifest.json). There is no
member named `initializeActionSheet`. -/
def dislateMethodNames : List String :=
  ["commands", "patchActionSheet", "onStart", "onStop", "renderPage",
   "getSettingsPanel"]

/-- Outcome of one run of `onStart`. -/
inductive StartOutcome where
  | patched
  | retryScheduled (delayMs : Nat)
  | gaveUp
  | handlerCrash (msg : String)
deriving DecidableEq, Repr

/-- `onStart`: `attempt` starts at 0 and `attempt++` runs exactly once, at
the top of the single (non-looping) try block, so `attempt` is always 1 in
the catch handler. On an exception, since `attempt (=1) < maxAttempts
(=3)`, the handler runs `setTimeout(this.initializeActionSheet(), attempt
* 10000)`: it first evaluates `this.initializeActionSheet`, which is
`undefined` on the plugin object, so the call raises a TypeError inside
the catch handler; the `gaveUp` branch requires `attempt ≥ maxAttempts`
and is unreachable. -/
def onStart (bodyThrows : Bool) : StartOutcome :=
  let attempt := 0 + 1
  if !bodyThrows then .patched
  else if attempt < maxAttempts then
    if dislateMethodNames.contains "initializeActionSheet" then
      .retryScheduled (attempt * 10000)
    else
      .handlerCrash "TypeError: this.initializeActionSheet is not a function"
  else .gaveUp

/-- C6: when the startup body throws, the catch handler itself crashes
trying to call the non-existent `this.initializeActionSheet`; `onStart`
never schedules a retry and never reaches the give-up branch (the attempt
counter cannot exceed 1). -/
theorem onStart_retry_broken :
    onStart true =
      .handlerCrash "TypeError: this.initializeActionSheet is not a function" ∧
    ∀ b, onStart b = .patched ∨
      onStart b =
        .handlerCrash "TypeError: this.initializeActionSheet is not a function" := by
  decide

/-! ## Plugin lifecycle and session invariants (src/index.tsx) -/

/-- Plugin-level mutable state: the revert cache (with its fresh-tag
counter), the active patcher hooks and the registered commands. -/
structure PluginState where
  cache : List CacheEntry
  nextTag : Nat
  patches : List String
  commands : List String
deriving DecidableEq, Repr

/-- `onStop`: `Patcher.unpatchAll(); this.commands = []` — the cache is
not touched. -/
def onStop (s : PluginState) : PluginState :=
  { s with patches := [], commands := [] }

/-- One observable session operation: a completed Translate/Revert press
for a message, or stopping the plugin. -/
inductive SessionOp where
  | press (mid messageContent res langLabel : String)
  | stop
deriving DecidableEq, Repr

/-- Effect of one operation on the plugin state. -/
def stepOp (s : PluginState) : SessionOp → PluginState
  | .press mid c r lab =>
    let t := dislatePress ⟨s.cache, s.nextTag⟩ mid c r lab
    ⟨t.1.cache, t.1.nextTag, s.patches, s.commands⟩
  | .stop => onStop s

/-- A session: fold the operations over a starting state. -/
def runSession (s : PluginState) (ops : List SessionOp) : PluginState :=
  ops.foldl stepOp s

/-- The sentinel entry the cache is initialized with. -/
def sentinel : CacheEntry := ⟨0, "invalid_id", "rosie sucks"⟩

/-- The state right after plugin load: the initial cache, tag 1 fresh. -/
def initialState : PluginState := ⟨cachedData, 1, [], []⟩

/-- C10 counterexample: a revert press keyed "invalid_id" removes the
sentinel and leaves the cache empty — so the sentinel is not preserved by
every operation, and the cache can become empty. -/
theorem sentinel_removable :
    (stepOp initialState (.press "invalid_id" "c" "r" "lab")).cache = [] := by
  decide

/-- Helper: a press whose message id is not "invalid_id" and a stop both
preserve the sentinel in the cache. -/
theorem sentinel_step (s : PluginState) (op : SessionOp)
    (hop : ∀ mid c r lab, op = .press mid c r lab → mid ≠ "invalid_id")
    (hs : sentinel ∈ s.cache) : sentinel ∈ (stepOp s op).cache := by
  cases op with
  | stop => exact hs
  | press mid c r lab =>
    have hmid : mid ≠ "invalid_id" := hop mid c r lab rfl
    show sentinel ∈
      (dislatePress ⟨s.cache, s.nextTag⟩ mid c r lab).1.cache
    unfold dislatePress
    cases hfind : findCached s.cache mid with
    | none => simp [hs]
    | some x =>
      have hxkey : x.key = mid := by
        have := List.find?_some hfind
        simpa using this
      have hne : sentinel ≠ x := by
        intro he
        apply hmid
        rw [← hxkey, ← he]
        rfl
      simp only []
      show sentinel ∈ revertRemove s.cache (some x)
      unfold revertRemove
      rw [List.mem_filter]
      exact ⟨hs, by simpa using hne⟩

/-- Helper: the sentinel survives a whole session of presses that never
use the id "invalid_id". -/
theorem runSession_sentinel (ops : List SessionOp) (s : PluginState)
    (hops : ∀ mid c r lab, SessionOp.press mid c r lab ∈ ops →
      mid ≠ "invalid_id")
    (hs : sentinel ∈ s.cache) : sentinel ∈ (runSession s ops).cache := by
  induction ops generalizing s with
  | nil => exact hs
  | cons op rest ih =>
    have h1 : sentinel ∈ (stepOp s op).cache :=
      sentinel_step s op
        (fun mid c r lab he => hops mid c r lab (he ▸ List.mem_cons_self _ _))
        hs
    exact ih (stepOp s op)
      (fun mid c r lab hm => hops mid c r lab (List.mem_cons_of_mem _ hm)) h1

/-- C10 (amended): the cache starts non-empty holding the sentinel,
`onStop` never touches the cache, and along any session whose press
operations all use message ids other than "invalid_id" the sentinel stays
cached — so the cache stays non-empty. (A press keyed "invalid_id" CAN
remove the sentinel, see the counterexample.) -/
theorem session_sentinel_invariant (ops : List SessionOp)
    (hops : ∀ mid c r lab, SessionOp.press mid c r lab ∈ ops →
      mid ≠ "invalid_id") :
    sentinel ∈ cachedData ∧
    (∀ s : PluginState, (onStop s).cache = s.cache) ∧
    sentinel ∈ (runSession initialState ops).cache ∧
    (runSession initialState ops).cache ≠ [] := by
  have hmem : sentinel ∈ (runSession initialState ops).cache :=
    runSession_sentinel ops initialState hops (by decide)
  exact ⟨by decide, fun s => rfl, hmem, List.ne_nil_of_mem hmem⟩

/-- C10 witness: one ordinary press (message "123") keeps the sentinel in
the cache and the cache non-empty. -/
theorem session_sentinel_invariant_witness :
    sentinel ∈ cachedData ∧
    (∀ s : PluginState, (onStop s).cache = s.cache) ∧
    sentinel ∈
      (runSession initialState
        [SessionOp.press "123" "hello" "bonjour" "FR"]).cache ∧
    (runSession initialState
      [SessionOp.press "123" "hello" "bonjour" "FR"]).cache ≠ [] :=
  session_sentinel_invariant [SessionOp.press "123" "hello" "bonjour" "FR"]
    (by
      intro mid c r lab h
      simp at h
      rw [h.1]
      decide)
